import Mathlib

/-!
Shallow embedding of the `lighter-analysis` repository (files
`lighter_api.py` and `process.py`) and verification of its
natural-language specification.

`lighter_api.py` is a thin HTTP client: a centralized request function
(`_make_request`), a health check, and six accessor functions that
validate Python-level arguments, build query parameters, and perform at
most one GET request.  We embed Python argument values as `PVal`
(strings, ints, bools, None — a Python `bool` is a subtype of `int`),
model the network as a function from the outgoing `Request` to a
`TransportResult` (timeout, connection error, other request exception,
or a response with a status code and an optionally JSON-parseable
body), and record the list of outbound requests each accessor makes so
that "no network call" is a provable statement.  An accessor returns
`Except String CallResult`: the `.error` case is an uncaught Python
exception escaping to the caller (e.g. a `TypeError` from comparing a
`str` with an `int`), and `CallResult` carries the returned value
(`Option Json`, `none` standing for Python `None`) together with the
trace of outbound requests.

`process.py` is a pandas helper converting one epoch-tick column of a
DataFrame to timezone-aware datetimes at a constant UTC+8 offset.  We
embed a DataFrame column-major (ordered list of named columns, row `i`
being the `i`-th entry of every column) and a converted datetime cell
as its instant in nanoseconds since the epoch together with its
fixed offset in minutes.
-/

namespace LighterApi

/-- A JSON value, the shape of a parsed API response body. -/
inductive Json
  | null
  | bool (b : Bool)
  | num (n : Int)
  | str (s : String)
  | arr (xs : List Json)
  | obj (fields : List (String × Json))

/-- A Python run-time value passed as an accessor argument.
`PVal.bool` is kept distinct from `PVal.int` because Python preserves
the distinction (e.g. in query-parameter serialization), but
`isinstance (b, int)` is `True` for a `bool`. -/
inductive PVal
  | str (s : String)
  | int (n : Int)
  | bool (b : Bool)
  | none
  deriving DecidableEq

/-- `isinstance (v, str)`. -/
def PVal.isStr : PVal → Bool
  | .str _ => true
  | _ => false

/-- `isinstance (v, (str, int))`; Python `bool` is a subclass of `int`. -/
def PVal.isStrOrInt : PVal → Bool
  | .str _ => true
  | .int _ => true
  | .bool _ => true
  | .none => false

/-- Python truthiness of a value (`bool (v)`). -/
def PVal.truthy : PVal → Bool
  | .str s => s ≠ ""
  | .int n => n ≠ 0
  | .bool b => b
  | .none => false

/-- The name of a value's Python type, as it appears in error messages. -/
def PVal.pyType : PVal → String
  | .str _ => "str"
  | .int _ => "int"
  | .bool _ => "bool"
  | .none => "NoneType"

/-- Lexicographic `≥` on code points, Python's `>=` on two `str` values. -/
def listGE : List Char → List Char → Bool
  | [], [] => true
  | [], _ :: _ => false
  | _ :: _, [] => true
  | a :: as, b :: bs =>
    if a.val > b.val then true
    else if a.val < b.val then false
    else listGE as bs

/-- The numeric value Python uses when a `bool` or `int` takes part in
an arithmetic comparison. -/
def PVal.asNum : PVal → Int
  | .int n => n
  | .bool b => if b then 1 else 0
  | _ => 0

/-- Python's `a >= b`: defined between two numbers (`int`/`bool`) and
between two `str` values; any other combination raises `TypeError`. -/
def pyGE (a b : PVal) : Except String Bool :=
  match a, b with
  | .str x, .str y => .ok (listGE x.toList y.toList)
  | .str _, _ | _, .str _ | .none, _ | _, .none =>
      .error ("TypeError: >= not supported between instances of " ++
        a.pyType ++ " and " ++ b.pyType)
  | _, _ => .ok (a.asNum ≥ b.asNum)

/-- Python `v in S` for a set `S` of strings: an `int`, `bool` or
`None` value never equals a `str`, so only a `str` can be a member. -/
def pyInStrSet (v : PVal) (s : List String) : Bool :=
  match v with
  | .str x => s.contains x
  | _ => false

/-- The characters removed by Python's `str.strip ()` (ASCII range). -/
def pyIsSpace (c : Char) : Bool :=
  c = ' ' || c = '\t' || c = '\n' || c = '\r' || c = '\x0b' || c = '\x0c'

/-- Python `s.strip ()`. -/
def pyStrip (s : String) : String :=
  String.mk (((s.toList.dropWhile pyIsSpace).reverse.dropWhile pyIsSpace).reverse)

/-- The string content of a `PVal` known to be a `str`. -/
def PVal.asStr : PVal → String
  | .str s => s
  | _ => ""

/-- `BASE_URL = os.getenv ("ZKLIGHTER_BASE_URL", "https://mainnet.zklighter.elliot.ai")`,
at its default. -/
def BASE_URL : String := "https://mainnet.zklighter.elliot.ai"

/-- `DEFAULT_TIMEOUT = int (os.getenv ("REQUEST_TIMEOUT", "10"))`, at its default. -/
def DEFAULT_TIMEOUT : Nat := 10

/-- One outbound GET request: target URL, query parameters in insertion
order, and the timeout in seconds.  Every request also carries the
fixed header `accept: application/json` (constant, so not modelled as
a field). -/
structure Request where
  url : String
  params : List (String × PVal)
  timeout : Nat
  deriving DecidableEq

/-- What the transport (`requests.get`) does with one request: time
out, fail to connect, raise some other `RequestException`, or deliver a
response with a status code and a body (`some j` if the body parses as
JSON `j`, `none` if it is not valid JSON). -/
inductive TransportResult
  | timeout
  | connectionError
  | requestError (msg : String)
  | response (status : Nat) (body : Option Json)

/-- The single transport failure kind: `class APIError (Exception)`,
carrying a human-readable message. -/
structure APIError where
  msg : String
  deriving DecidableEq

/-- A transport: what the network does with each outgoing request. -/
def Transport := Request → TransportResult

/-- `_make_request (url, params, timeout)`, given what the transport
does with the request.  `response.raise_for_status ()` raises
`requests.exceptions.HTTPError` exactly for status codes in 400–599;
only then is the body parsed as JSON, a failure there raising
`ValueError`.  Every failure is mapped to `APIError` with the
descriptive message built in the source. -/
def make_request (t : TransportResult) (timeout : Nat := DEFAULT_TIMEOUT) :
    Except APIError Json :=
  match t with
  | .timeout => .error ⟨"Request timeout after " ++ toString timeout ++ " seconds"⟩
  | .connectionError => .error ⟨"Failed to connect to the API"⟩
  | .requestError m => .error ⟨"Request failed: " ++ m⟩
  | .response status body =>
    if 400 ≤ status ∧ status < 600 then
      .error ⟨"HTTP error: " ++ toString status⟩
    else
      match body with
      | some j => .ok j
      | Option.none => .error ⟨"Invalid JSON response"⟩

/-- The result of one accessor call: the value returned to the caller
(`Option Json`, `none` for Python `None`) and the trace of outbound
requests the call made. -/
structure CallResult where
  result : Option Json
  calls : List Request

/-- The request `health_check` issues: `urljoin (BASE_URL, "")` with a
fixed 5-second timeout and no parameters. -/
def health_req : Request := ⟨BASE_URL, [], 5⟩

/-- `health_check ()`: true iff `_make_request (url, timeout=5)` does
not raise `APIError`. -/
def health_check (transport : Transport) : Bool :=
  match make_request (transport health_req) 5 with
  | .ok _ => true
  | .error _ => false

/-- `get_account_index (l1_address)`.  Rejects (logs and returns
`None`, with no network call) when `not l1_address or not
isinstance (l1_address, str)`. -/
def get_account_index (l1_address : PVal) (transport : Transport) :
    Except String CallResult :=
  if !l1_address.truthy || !l1_address.isStr then
    .ok ⟨Option.none, []⟩
  else
    let req : Request :=
      ⟨BASE_URL ++ "/api/v1/accountsByL1Address", [("l1_address", l1_address)],
        DEFAULT_TIMEOUT⟩
    match make_request (transport req) with
    | .ok j => .ok ⟨some j, [req]⟩
    | .error _ => .ok ⟨Option.none, [req]⟩

/-- `get_account (by, value)`: both arguments must be `str`, `by` must
be `"index"` or `"l1_address"`, and `value.strip ()` must be non-empty;
any violation returns `None` with no network call. -/
def get_account (by_ value : PVal) (transport : Transport) :
    Except String CallResult :=
  if !by_.isStr || !value.isStr then
    .ok ⟨Option.none, []⟩
  else if !pyInStrSet by_ ["index", "l1_address"] then
    .ok ⟨Option.none, []⟩
  else if pyStrip value.asStr = "" then
    .ok ⟨Option.none, []⟩
  else
    let req : Request :=
      ⟨BASE_URL ++ "/api/v1/account", [("by", by_), ("value", value)],
        DEFAULT_TIMEOUT⟩
    match make_request (transport req) with
    | .ok j => .ok ⟨some j, [req]⟩
    | .error _ => .ok ⟨Option.none, [req]⟩

/-- `get_orderbook_details (market_id=None)`: no validation; a truthy
`market_id` is included as a query parameter, otherwise the request is
made with no parameters. -/
def get_orderbook_details (market_id : PVal := PVal.none)
    (transport : Transport) : Except String CallResult :=
  let req : Request :=
    ⟨BASE_URL ++ "/api/v1/orderBookDetails",
      if market_id.truthy then [("market_id", market_id)] else [],
      DEFAULT_TIMEOUT⟩
  match make_request (transport req) with
  | .ok j => .ok ⟨some j, [req]⟩
  | .error _ => .ok ⟨Option.none, [req]⟩

/-- `allowed_resolutions` of `fetch_candlesticks`. -/
def candleResolutions : List String :=
  ["1m", "5m", "15m", "30m", "1h", "4h", "12h", "1d", "1w"]

/-- `allowed_resolutions` of `fetch_funding_rates`. -/
def fundingResolutions : List String := ["1h", "1d"]

/-- `fetch_candlesticks (market_id, resolution, start_timestamp,
end_timestamp, count_back)`.  All five arguments must be `str` or
`int` (a `bool` passes), then `start_timestamp >= end_timestamp` is
evaluated — this Python comparison raises `TypeError` when one side is
a `str` and the other a number, and that exception is NOT inside the
`try` block, so it escapes to the caller (the `.error` case) — then the
resolution must belong to the allowed set.  Only then is the request
made, with all five values forwarded as query parameters. -/
def fetch_candlesticks (market_id : PVal := .str "1")
    (resolution : PVal := .str "1d") (start_timestamp : PVal := .int 0)
    (end_timestamp : PVal := .int 5000000000000)
    (count_back : PVal := .int 10) (transport : Transport) :
    Except String CallResult :=
  if !([market_id, resolution, start_timestamp, end_timestamp,
        count_back].all PVal.isStrOrInt) then
    .ok ⟨Option.none, []⟩
  else
    match pyGE start_timestamp end_timestamp with
    | .error e => .error e
    | .ok ge =>
      if ge then .ok ⟨Option.none, []⟩
      else if !pyInStrSet resolution candleResolutions then
        .ok ⟨Option.none, []⟩
      else
        let req : Request :=
          ⟨BASE_URL ++ "/api/v1/candlesticks",
            [("market_id", market_id), ("resolution", resolution),
             ("start_timestamp", start_timestamp),
             ("end_timestamp", end_timestamp), ("count_back", count_back)],
            DEFAULT_TIMEOUT⟩
        match make_request (transport req) with
        | .ok j => .ok ⟨some j, [req]⟩
        | .error _ => .ok ⟨Option.none, [req]⟩

/-- `fetch_funding_rates (market_id, resolution, start_timestamp,
end_timestamp, count_back)`: same structure as `fetch_candlesticks`
with allowed resolutions `{1h, 1d}` and the fundings endpoint. -/
def fetch_funding_rates (market_id : PVal := .str "1")
    (resolution : PVal := .str "1h") (start_timestamp : PVal := .int 0)
    (end_timestamp : PVal := .int 5000000000000)
    (count_back : PVal := .int 10) (transport : Transport) :
    Except String CallResult :=
  if !([market_id, resolution, start_timestamp, end_timestamp,
        count_back].all PVal.isStrOrInt) then
    .ok ⟨Option.none, []⟩
  else
    match pyGE start_timestamp end_timestamp with
    | .error e => .error e
    | .ok ge =>
      if ge then .ok ⟨Option.none, []⟩
      else if !pyInStrSet resolution fundingResolutions then
        .ok ⟨Option.none, []⟩
      else
        let req : Request :=
          ⟨BASE_URL ++ "/api/v1/fundings",
            [("market_id", market_id), ("resolution", resolution),
             ("start_timestamp", start_timestamp),
             ("end_timestamp", end_timestamp), ("count_back", count_back)],
            DEFAULT_TIMEOUT⟩
        match make_request (transport req) with
        | .ok j => .ok ⟨some j, [req]⟩
        | .error _ => .ok ⟨Option.none, [req]⟩

/-- `get_current_funding_rates ()`: no arguments, no validation. -/
def get_current_funding_rates (transport : Transport) :
    Except String CallResult :=
  let req : Request := ⟨BASE_URL ++ "/api/v1/funding-rates", [], DEFAULT_TIMEOUT⟩
  match make_request (transport req) with
  | .ok j => .ok ⟨some j, [req]⟩
  | .error _ => .ok ⟨Option.none, [req]⟩

end LighterApi

namespace Process

/-- One cell of a DataFrame: an integer (an epoch tick before
conversion), a string, or a timezone-aware datetime.  A datetime is its
instant as nanoseconds since the Unix epoch together with the fixed
UTC offset of its timezone in minutes — `tz_convert` changes only the
offset, never the instant. -/
inductive Cell
  | int (n : Int)
  | str (s : String)
  | datetime (epochNanos : Int) (offsetMinutes : Int)
  deriving DecidableEq

/-- A DataFrame, column-major: ordered named columns, row `i` being the
`i`-th entry of every column. -/
abbrev DataFrame := List (String × List Cell)

/-- Nanoseconds per tick of a `pd.to_datetime` unit, for the units the
spec names; any other unit makes `pd.to_datetime` raise. -/
def unitNanos : String → Option Int
  | "ms" => some 1000000
  | "s" => some 1000000000
  | "ns" => some 1
  | _ => Option.none

/-- `pd.to_datetime (cell, unit=·, utc=True).tz_convert (timezone (timedelta (hours=8)))`
on one cell: an integer tick becomes the UTC instant `n * factor`
nanoseconds re-expressed at the constant +480-minute (8-hour) offset;
a non-integer cell makes the conversion fail. -/
def toDatetime (factor : Int) : Cell → Option Cell
  | .int n => some (.datetime (n * factor) 480)
  | _ => Option.none

/-- Convert every cell of one column's value list, failing if any cell
is not an integer tick. -/
def convertCells (factor : Int) : List Cell → Option (List Cell)
  | [] => some []
  | c :: cs =>
    match toDatetime factor c, convertCells factor cs with
    | some c', some cs' => some (c' :: cs')
    | _, _ => Option.none

/-- `df[column] = pd.to_datetime (df[column], unit=unit, utc=True).dt.tz_convert (tz)`:
every column named `column` has its cells converted; other columns are
kept as they are. -/
def convertColumns (column : String) (factor : Int) :
    DataFrame → Except String DataFrame
  | [] => .ok []
  | (name, cells) :: rest =>
    if name = column then
      match convertCells factor cells with
      | some cells' => (convertColumns column factor rest).map ((name, cells') :: ·)
      | Option.none => .error "cannot convert column values to datetime"
    else (convertColumns column factor rest).map ((name, cells) :: ·)

/-- `convert_timestamp_column (df, column="timestamp", unit="ms")`: when
`column in df.columns` the column is converted (a bad unit or a
non-integer cell raises out of the function, the `.error` case);
otherwise the DataFrame is returned unchanged. -/
def convert_timestamp_column (df : DataFrame) (column : String := "timestamp")
    (unit : String := "ms") : Except String DataFrame :=
  if column ∈ df.map Prod.fst then
    match unitNanos unit with
    | some factor => convertColumns column factor df
    | Option.none => .error ("invalid unit abbreviation: " ++ unit)
  else .ok df

/-- Days from 1970-01-01 to the civil date `y-m-d` (proleptic Gregorian
calendar; floor division, valid for all dates of interest). -/
def daysFromCivil (y : Int) (m d : Nat) : Int :=
  let yAdj : Int := if m ≤ 2 then y - 1 else y
  let era : Int := yAdj / 400
  let yoe : Int := yAdj - era * 400
  let mp : Nat := (m + 9) % 12
  let doy : Int := (153 * mp + 2) / 5 + d - 1
  let doe : Int := yoe * 365 + yoe / 4 - yoe / 100 + doy
  era * 146097 + doe - 719468

/-- The datetime cell denoting the wall-clock time
`y-m-d h:mi:s` in the fixed UTC+8 zone: its UTC instant is 8 hours
earlier than the same wall-clock reading in UTC. -/
def mkDateTimeUTC8 (y : Int) (m d h mi s : Nat) : Cell :=
  .datetime ((daysFromCivil y m d * 86400 +
    (h : Int) * 3600 + (mi : Int) * 60 + (s : Int) - 8 * 3600) * 1000000000) 480

end Process

namespace LighterApi

/-- Claim C5: `health_check` returns `true` iff the request to the base
URL (fixed 5-second timeout, no parameters) succeeds without the
failure kind, and `false` exactly when it fails; being a total `Bool`
function of the transport, it never raises, whatever the transport
does. -/
theorem health_check_iff_request_ok (t : Transport) :
    (health_check t = true ↔ ∃ j, make_request (t health_req) 5 = .ok j) ∧
    (health_check t = false ↔ ∃ err, make_request (t health_req) 5 = .error err) := by
  unfold health_check
  cases h : make_request (t health_req) 5 <;> simp [h]

/-- Witness for C5: a transport delivering a 2xx JSON response makes
`health_check` return `true`; one that times out makes it `false`. -/
theorem health_check_iff_request_ok_witness :
    health_check (fun _ => TransportResult.response 200 (some Json.null)) = true ∧
    health_check (fun _ => TransportResult.timeout) = false :=
  ⟨(health_check_iff_request_ok _).1.mpr ⟨Json.null, rfl⟩,
   (health_check_iff_request_ok _).2.mpr ⟨⟨"Request timeout after 5 seconds"⟩, rfl⟩⟩

/-- Claim C3 counterexample: a response with status 304 — outside the
2xx success range — and a valid JSON body does NOT raise the failure
kind: `response.raise_for_status ()` only raises for 400–599, so
`_make_request` returns the parsed body.  The claim "raises iff …
HTTP status outside the 2xx range …" is therefore false as stated. -/
theorem make_request_status_304_returns_body :
    make_request (.response 304 (some Json.null)) DEFAULT_TIMEOUT = .ok Json.null ∧
    ¬ (200 ≤ 304 ∧ 304 < 300) := ⟨rfl, by decide⟩

/-- Claim C3 (amended): `_make_request` fails with the single failure
kind iff the transport times out, cannot connect, raises another
request-level exception, delivers a status in 400–599, or delivers a
body that is not valid JSON; on a response with a valid JSON body and
a status outside 400–599 it returns exactly the parsed body.  Each
call consumes exactly one transport outcome, so there is no retry. -/
theorem make_request_failure_iff (t : TransportResult) (timeout : Nat) :
    ((∃ err, make_request t timeout = .error err) ↔
      (t = .timeout ∨ t = .connectionError ∨ (∃ m, t = .requestError m) ∨
        (∃ s b, t = .response s b ∧ ((400 ≤ s ∧ s < 600) ∨ b = Option.none)))) ∧
    (∀ s j, t = .response s (some j) → ¬ (400 ≤ s ∧ s < 600) →
      make_request t timeout = .ok j) := by
  constructor
  · cases t with
    | timeout => simp [make_request]
    | connectionError => simp [make_request]
    | requestError m => simp [make_request]
    | response s b =>
      by_cases h : 400 ≤ s ∧ s < 600
      · simp only [make_request, h, if_true]
        constructor
        · intro _
          exact Or.inr (Or.inr (Or.inr ⟨s, b, rfl, Or.inl h⟩))
        · intro _
          exact ⟨_, rfl⟩
      · cases b with
        | none =>
          simp only [make_request, h, if_false]
          constructor
          · intro _
            exact Or.inr (Or.inr (Or.inr ⟨s, Option.none, rfl, Or.inr rfl⟩))
          · intro _
            exact ⟨_, rfl⟩
        | some j =>
          simp [make_request, h]
          omega
  · rintro s j rfl h
    simp [make_request, h]

/-- Witness for C3 (amended): at concrete transport outcomes — a
timeout fails, and a 201 response with JSON body `null` returns that
body. -/
theorem make_request_failure_iff_witness :
    (∃ err, make_request TransportResult.timeout 10 = .error err) ∧
    make_request (TransportResult.response 201 (some Json.null)) 10 = .ok Json.null :=
  ⟨(make_request_failure_iff TransportResult.timeout 10).1.mpr (Or.inl rfl),
   (make_request_failure_iff (TransportResult.response 201 (some Json.null)) 10).2
     201 Json.null rfl (by decide)⟩

/-- Claim C2 (code bug): with string-typed `start_timestamp = "0"` and
the integer-typed default `end_timestamp`, both of which pass the
`isinstance (·, (str, int))` validation, the comparison
`start_timestamp >= end_timestamp` raises `TypeError` outside the
`try` block, so the exception escapes `fetch_candlesticks` to its
caller (the `.error` case) instead of a `None`/body return; dually for
`fetch_funding_rates` with a string-typed `end_timestamp`.  This
contradicts the documented contract that accessors never raise. -/
theorem fetch_mixed_timestamp_types_raise :
    fetch_candlesticks (.str "1") (.str "1d") (.str "0") (.int 5000000000000)
      (.int 10) (fun _ => .response 200 (some Json.null)) =
      .error "TypeError: >= not supported between instances of str and int" ∧
    fetch_funding_rates (.str "1") (.str "1h") (.int 0) (.str "5000000000000")
      (.int 10) (fun _ => .response 200 (some Json.null)) =
      .error "TypeError: >= not supported between instances of int and str" :=
  ⟨rfl, rfl⟩

end LighterApi

namespace LighterApi

/-- The request `fetch_candlesticks` builds when `start_timestamp` is
the Python value `False` and the other arguments are the defaults. -/
def candlesticksFalseStartReq : Request :=
  ⟨BASE_URL ++ "/api/v1/candlesticks",
    [("market_id", .str "1"), ("resolution", .str "1d"),
     ("start_timestamp", .bool false),
     ("end_timestamp", .int 5000000000000), ("count_back", .int 10)],
    DEFAULT_TIMEOUT⟩

/-- The request `fetch_funding_rates` builds when `start_timestamp` is
the Python value `False` and the other arguments are the defaults. -/
def fundingsFalseStartReq : Request :=
  ⟨BASE_URL ++ "/api/v1/fundings",
    [("market_id", .str "1"), ("resolution", .str "1h"),
     ("start_timestamp", .bool false),
     ("end_timestamp", .int 5000000000000), ("count_back", .int 10)],
    DEFAULT_TIMEOUT⟩

/-- Claim C10: a Python `bool` passes the `isinstance (·, (str, int))`
type validation of `fetch_candlesticks` and `fetch_funding_rates`
(`bool` is a subclass of `int`): with `start_timestamp = False`
(numerically 0) and the integer default `end_timestamp`, both
functions proceed past the type check, compare `False >= end` as
numbers, and forward `False` itself as the `start_timestamp` query
parameter of the one outbound request, rather than rejecting the call
as wrong-typed. -/
theorem bool_passes_type_validation :
    (∀ b : Bool, (PVal.bool b).isStrOrInt = true) ∧
    (∀ t : Transport, ∃ res : Option Json,
      fetch_candlesticks (.str "1") (.str "1d") (.bool false)
        (.int 5000000000000) (.int 10) t =
        .ok ⟨res, [candlesticksFalseStartReq]⟩) ∧
    (∀ t : Transport, ∃ res : Option Json,
      fetch_funding_rates (.str "1") (.str "1h") (.bool false)
        (.int 5000000000000) (.int 10) t =
        .ok ⟨res, [fundingsFalseStartReq]⟩) := by
  refine ⟨fun _ => rfl, fun t => ?_, fun t => ?_⟩
  · have h : fetch_candlesticks (.str "1") (.str "1d") (.bool false)
        (.int 5000000000000) (.int 10) t =
        match make_request (t candlesticksFalseStartReq) with
        | .ok j => .ok ⟨some j, [candlesticksFalseStartReq]⟩
        | .error _ => .ok ⟨Option.none, [candlesticksFalseStartReq]⟩ := rfl
    rw [h]
    cases make_request (t candlesticksFalseStartReq) with
    | ok j => exact ⟨some j, rfl⟩
    | error e => exact ⟨Option.none, rfl⟩
  · have h : fetch_funding_rates (.str "1") (.str "1h") (.bool false)
        (.int 5000000000000) (.int 10) t =
        match make_request (t fundingsFalseStartReq) with
        | .ok j => .ok ⟨some j, [fundingsFalseStartReq]⟩
        | .error _ => .ok ⟨Option.none, [fundingsFalseStartReq]⟩ := rfl
    rw [h]
    cases make_request (t fundingsFalseStartReq) with
    | ok j => exact ⟨some j, rfl⟩
    | error e => exact ⟨Option.none, rfl⟩

/-- Claim C1 counterexample: `get_account_index` called with the
whitespace-only string `" "` — an invalid input per the claim — does
NOT return `None` with no network call: `not " "` is `False` in
Python, so validation passes, the request IS issued (the trace has one
request) and the parsed body is returned.  The claim is therefore
false as stated. -/
theorem get_account_index_whitespace_calls_network :
    get_account_index (.str " ") (fun _ => .response 200 (some Json.null)) =
      .ok ⟨some Json.null, [⟨BASE_URL ++ "/api/v1/accountsByL1Address",
        [("l1_address", .str " ")], DEFAULT_TIMEOUT⟩]⟩ := rfl

end LighterApi

namespace LighterApi

/-- Claim C1 (amended): each accessor returns `None` with no network
call exactly per its own implemented validation — `get_account_index`
rejects a falsy or non-string `l1_address` (the empty string is falsy,
but a whitespace-only string passes and is forwarded);
`get_account` rejects a non-string `by` or `value`, a `by` outside
`{index, l1_address}`, and a `value` that strips to empty;
`fetch_candlesticks` and `fetch_funding_rates` reject an argument that
is neither `str` nor `int` (a `bool` passes), a comparable
`start_timestamp >= end_timestamp`, and a resolution outside the
respective allowed set; `get_orderbook_details` and
`get_current_funding_rates` validate nothing. -/
theorem accessors_reject_per_local_validation :
    (∀ (v : PVal) (t : Transport), (v.truthy = false ∨ v.isStr = false) →
      get_account_index v t = .ok ⟨Option.none, []⟩) ∧
    (∀ (b v : PVal) (t : Transport),
      (b.isStr = false ∨ v.isStr = false ∨
        pyInStrSet b ["index", "l1_address"] = false ∨ pyStrip v.asStr = "") →
      get_account b v t = .ok ⟨Option.none, []⟩) ∧
    (∀ (m r s e c : PVal) (t : Transport),
      [m, r, s, e, c].all PVal.isStrOrInt = false →
      fetch_candlesticks m r s e c t = .ok ⟨Option.none, []⟩ ∧
      fetch_funding_rates m r s e c t = .ok ⟨Option.none, []⟩) ∧
    (∀ (m r s e c : PVal) (t : Transport), pyGE s e = .ok true →
      fetch_candlesticks m r s e c t = .ok ⟨Option.none, []⟩ ∧
      fetch_funding_rates m r s e c t = .ok ⟨Option.none, []⟩) ∧
    (∀ (m r s e c : PVal) (t : Transport), pyGE s e = .ok false →
      pyInStrSet r candleResolutions = false →
      fetch_candlesticks m r s e c t = .ok ⟨Option.none, []⟩) ∧
    (∀ (m r s e c : PVal) (t : Transport), pyGE s e = .ok false →
      pyInStrSet r fundingResolutions = false →
      fetch_funding_rates m r s e c t = .ok ⟨Option.none, []⟩) := by
  refine ⟨?_, ?_, ?_, ?_, ?_, ?_⟩
  · intro v t h
    unfold get_account_index
    rcases h with h | h <;> simp [h]
  · intro b v t h
    unfold get_account
    rcases h with h | h | h | h
    · simp [h]
    · simp [h]
    · cases hb : b.isStr
      · simp [hb]
      · simp [hb, h]
    · cases hb : b.isStr
      · simp [hb]
      · cases hv : v.isStr
        · simp [hb, hv]
        · cases hin : pyInStrSet b ["index", "l1_address"]
          · simp [hb, hv, hin]
          · simp [hb, hv, hin, h]
  · intro m r s e c t h
    constructor <;> [unfold fetch_candlesticks; unfold fetch_funding_rates] <;>
      simp [h]
  · intro m r s e c t h
    constructor <;> [unfold fetch_candlesticks; unfold fetch_funding_rates] <;>
      (cases hall : [m, r, s, e, c].all PVal.isStrOrInt
       · simp [hall]
       · simp [hall, h])
  · intro m r s e c t h hr
    unfold fetch_candlesticks
    cases hall : [m, r, s, e, c].all PVal.isStrOrInt
    · simp [hall]
    · simp [hall, h, hr]
  · intro m r s e c t h hr
    unfold fetch_funding_rates
    cases hall : [m, r, s, e, c].all PVal.isStrOrInt
    · simp [hall]
    · simp [hall, h, hr]

/-- Witness for C1 (amended): each rejection triggers at a concrete
invalid input, with a transport that would answer 200/JSON if it were
(wrongly) consulted. -/
theorem accessors_reject_per_local_validation_witness :
    get_account_index PVal.none (fun _ => .response 200 (some Json.null)) =
      .ok ⟨Option.none, []⟩ ∧
    get_account (.str "name") (.str "x") (fun _ => .response 200 (some Json.null)) =
      .ok ⟨Option.none, []⟩ ∧
    fetch_candlesticks PVal.none (.str "1d") (.int 0) (.int 1) (.int 10)
      (fun _ => .response 200 (some Json.null)) = .ok ⟨Option.none, []⟩ ∧
    fetch_candlesticks (.str "1") (.str "1d") (.int 5) (.int 5) (.int 10)
      (fun _ => .response 200 (some Json.null)) = .ok ⟨Option.none, []⟩ ∧
    fetch_candlesticks (.str "1") (.str "2d") (.int 0) (.int 1) (.int 10)
      (fun _ => .response 200 (some Json.null)) = .ok ⟨Option.none, []⟩ ∧
    fetch_funding_rates (.str "1") (.str "1m") (.int 0) (.int 1) (.int 10)
      (fun _ => .response 200 (some Json.null)) = .ok ⟨Option.none, []⟩ :=
  ⟨accessors_reject_per_local_validation.1 _ _ (Or.inl rfl),
   accessors_reject_per_local_validation.2.1 _ _ _
     (Or.inr (Or.inr (Or.inl (by decide)))),
   (accessors_reject_per_local_validation.2.2.1 PVal.none (.str "1d") (.int 0)
     (.int 1) (.int 10) _ (by decide)).1,
   (accessors_reject_per_local_validation.2.2.2.1 (.str "1") (.str "1d") (.int 5)
     (.int 5) (.int 10) _ rfl).1,
   accessors_reject_per_local_validation.2.2.2.2.1 (.str "1") (.str "2d") (.int 0)
     (.int 1) (.int 10) _ rfl (by decide),
   accessors_reject_per_local_validation.2.2.2.2.2 (.str "1") (.str "1m") (.int 0)
     (.int 1) (.int 10) _ rfl (by decide)⟩

end LighterApi

namespace LighterApi

/-- Claim C7: `get_account` returns `None` with no network call when
`by` or `value` is not a string, when `by` is not exactly `"index"` or
`"l1_address"`, or when `value` strips to the empty string; on valid
input it issues exactly one request to the account endpoint with `by`
and `value` as the query parameters. -/
theorem get_account_validation :
    (∀ (b v : PVal) (t : Transport), b.isStr = false →
      get_account b v t = .ok ⟨Option.none, []⟩) ∧
    (∀ (b v : PVal) (t : Transport), v.isStr = false →
      get_account b v t = .ok ⟨Option.none, []⟩) ∧
    (∀ (bs : String) (v : PVal) (t : Transport),
      bs ≠ "index" → bs ≠ "l1_address" →
      get_account (.str bs) v t = .ok ⟨Option.none, []⟩) ∧
    (∀ (bs vs : String) (t : Transport), pyStrip vs = "" →
      get_account (.str bs) (.str vs) t = .ok ⟨Option.none, []⟩) ∧
    (∀ (bs vs : String) (t : Transport), (bs = "index" ∨ bs = "l1_address") →
      pyStrip vs ≠ "" →
      ∃ res : Option Json, get_account (.str bs) (.str vs) t =
        .ok ⟨res, [⟨BASE_URL ++ "/api/v1/account",
          [("by", .str bs), ("value", .str vs)], DEFAULT_TIMEOUT⟩]⟩) := by
  refine ⟨?_, ?_, ?_, ?_, ?_⟩
  · intro b v t h
    unfold get_account
    simp [h]
  · intro b v t h
    unfold get_account
    simp [h]
  · intro bs v t h1 h2
    unfold get_account
    cases hv : v.isStr
    · simp [hv]
    · simp [hv, PVal.isStr, pyInStrSet, List.contains, h1, h2]
  · intro bs vs t h
    unfold get_account
    cases hin : pyInStrSet (.str bs) ["index", "l1_address"]
    · simp [hin]
    · simp [hin, PVal.asStr, h]
  · intro bs vs t hb hv
    unfold get_account
    have hin : pyInStrSet (.str bs) ["index", "l1_address"] = true := by
      rcases hb with rfl | rfl <;> decide
    simp only [PVal.isStr, Bool.not_true, Bool.or_self, Bool.false_eq_true,
      if_false, hin, PVal.asStr, Bool.not_false, hv, if_true, Bool.false_or]
    cases make_request (t ⟨BASE_URL ++ "/api/v1/account",
        [("by", .str bs), ("value", .str vs)], DEFAULT_TIMEOUT⟩) with
    | ok j => exact ⟨some j, rfl⟩
    | error e => exact ⟨Option.none, rfl⟩

/-- Witness for C7: each rejection at a concrete input, and one valid
call forwarding `by` and `value`. -/
theorem get_account_validation_witness :
    get_account (.int 3) (.str "x") (fun _ => .response 200 (some Json.null)) =
      .ok ⟨Option.none, []⟩ ∧
    get_account (.str "index") PVal.none (fun _ => .response 200 (some Json.null)) =
      .ok ⟨Option.none, []⟩ ∧
    get_account (.str "address") (.str "x") (fun _ => .response 200 (some Json.null)) =
      .ok ⟨Option.none, []⟩ ∧
    get_account (.str "index") (.str " \t ") (fun _ => .response 200 (some Json.null)) =
      .ok ⟨Option.none, []⟩ ∧
    (∃ res : Option Json,
      get_account (.str "l1_address") (.str "0xabc")
        (fun _ => .response 200 (some Json.null)) =
        .ok ⟨res, [⟨BASE_URL ++ "/api/v1/account",
          [("by", .str "l1_address"), ("value", .str "0xabc")],
          DEFAULT_TIMEOUT⟩]⟩) :=
  ⟨get_account_validation.1 (.int 3) (.str "x") _ rfl,
   get_account_validation.2.1 (.str "index") PVal.none _ rfl,
   get_account_validation.2.2.1 "address" (.str "x") _ (by decide) (by decide),
   get_account_validation.2.2.2.1 "index" " \t " _ (by decide),
   get_account_validation.2.2.2.2 "l1_address" "0xabc" _ (Or.inr rfl) (by decide)⟩

end LighterApi

namespace LighterApi

/-- Claim C6: for `fetch_candlesticks` and `fetch_funding_rates` with
integer timestamps — `start_timestamp = end_timestamp` is rejected
with `None` and no network call (whatever the other arguments are);
`start_timestamp = end_timestamp - 1` with otherwise-valid arguments
is accepted and all five values are forwarded as the query parameters
of the one outbound request; a resolution outside the respective
allowed set is rejected with `None` and no network call. -/
theorem fetch_boundary_validation :
    (∀ (m r c : PVal) (e : Int) (t : Transport),
      fetch_candlesticks m r (.int e) (.int e) c t = .ok ⟨Option.none, []⟩) ∧
    (∀ (m r c : PVal) (e : Int) (t : Transport),
      fetch_funding_rates m r (.int e) (.int e) c t = .ok ⟨Option.none, []⟩) ∧
    (∀ (m c : PVal) (e : Int) (rs : String) (t : Transport),
      m.isStrOrInt = true → c.isStrOrInt = true →
      pyInStrSet (.str rs) candleResolutions = true →
      ∃ res : Option Json,
        fetch_candlesticks m (.str rs) (.int (e - 1)) (.int e) c t =
          .ok ⟨res, [⟨BASE_URL ++ "/api/v1/candlesticks",
            [("market_id", m), ("resolution", .str rs),
             ("start_timestamp", .int (e - 1)), ("end_timestamp", .int e),
             ("count_back", c)], DEFAULT_TIMEOUT⟩]⟩) ∧
    (∀ (m c : PVal) (e : Int) (rs : String) (t : Transport),
      m.isStrOrInt = true → c.isStrOrInt = true →
      pyInStrSet (.str rs) fundingResolutions = true →
      ∃ res : Option Json,
        fetch_funding_rates m (.str rs) (.int (e - 1)) (.int e) c t =
          .ok ⟨res, [⟨BASE_URL ++ "/api/v1/fundings",
            [("market_id", m), ("resolution", .str rs),
             ("start_timestamp", .int (e - 1)), ("end_timestamp", .int e),
             ("count_back", c)], DEFAULT_TIMEOUT⟩]⟩) ∧
    (∀ (m r c : PVal) (s e : Int) (t : Transport),
      pyInStrSet r candleResolutions = false →
      fetch_candlesticks m r (.int s) (.int e) c t = .ok ⟨Option.none, []⟩) ∧
    (∀ (m r c : PVal) (s e : Int) (t : Transport),
      pyInStrSet r fundingResolutions = false →
      fetch_funding_rates m r (.int s) (.int e) c t = .ok ⟨Option.none, []⟩) := by
  refine ⟨?_, ?_, ?_, ?_, ?_, ?_⟩
  · intro m r c e t
    unfold fetch_candlesticks
    cases hall : [m, r, .int e, .int e, c].all PVal.isStrOrInt
    · simp [hall]
    · simp [hall, pyGE, PVal.asNum]
  · intro m r c e t
    unfold fetch_funding_rates
    cases hall : [m, r, .int e, .int e, c].all PVal.isStrOrInt
    · simp [hall]
    · simp [hall, pyGE, PVal.asNum]
  · intro m c e rs t hm hc hr
    unfold fetch_candlesticks
    have hall : [m, .str rs, .int (e - 1), .int e, c].all PVal.isStrOrInt = true := by
      exact List.all_eq_true.mpr (by
        rintro x hx
        simp only [List.mem_cons, List.not_mem_nil, or_false] at hx
        rcases hx with rfl | rfl | rfl | rfl | rfl
        · exact hm
        · rfl
        · rfl
        · rfl
        · exact hc)
    have hlt : ¬ (e - 1 ≥ e) := by omega
    simp only [hall, Bool.not_true, Bool.false_eq_true, if_false, pyGE,
      PVal.asNum, hlt, decide_eq_false, hr, Bool.not_false, if_true]
    cases make_request (t ⟨BASE_URL ++ "/api/v1/candlesticks",
        [("market_id", m), ("resolution", .str rs),
         ("start_timestamp", .int (e - 1)), ("end_timestamp", .int e),
         ("count_back", c)], DEFAULT_TIMEOUT⟩) with
    | ok j => exact ⟨some j, rfl⟩
    | error err => exact ⟨Option.none, rfl⟩
  · intro m c e rs t hm hc hr
    unfold fetch_funding_rates
    have hall : [m, .str rs, .int (e - 1), .int e, c].all PVal.isStrOrInt = true := by
      exact List.all_eq_true.mpr (by
        rintro x hx
        simp only [List.mem_cons, List.not_mem_nil, or_false] at hx
        rcases hx with rfl | rfl | rfl | rfl | rfl
        · exact hm
        · rfl
        · rfl
        · rfl
        · exact hc)
    have hlt : ¬ (e - 1 ≥ e) := by omega
    simp only [hall, Bool.not_true, Bool.false_eq_true, if_false, pyGE,
      PVal.asNum, hlt, decide_eq_false, hr, Bool.not_false, if_true]
    cases make_request (t ⟨BASE_URL ++ "/api/v1/fundings",
        [("market_id", m), ("resolution", .str rs),
         ("start_timestamp", .int (e - 1)), ("end_timestamp", .int e),
         ("count_back", c)], DEFAULT_TIMEOUT⟩) with
    | ok j => exact ⟨some j, rfl⟩
    | error err => exact ⟨Option.none, rfl⟩
  · intro m r c s e t hr
    unfold fetch_candlesticks
    cases hall : [m, r, .int s, .int e, c].all PVal.isStrOrInt
    · simp [hall]
    · by_cases hse : s ≥ e
      · simp [hall, pyGE, PVal.asNum, hse]
      · simp [hall, pyGE, PVal.asNum, hse, hr]
  · intro m r c s e t hr
    unfold fetch_funding_rates
    cases hall : [m, r, .int s, .int e, c].all PVal.isStrOrInt
    · simp [hall]
    · by_cases hse : s ≥ e
      · simp [hall, pyGE, PVal.asNum, hse]
      · simp [hall, pyGE, PVal.asNum, hse, hr]

/-- Witness for C6: at concrete inputs — equal timestamps rejected,
end minus one accepted and forwarded, an out-of-set resolution
rejected. -/
theorem fetch_boundary_validation_witness :
    fetch_candlesticks (.str "1") (.str "1d") (.int 7) (.int 7) (.int 10)
      (fun _ => .response 200 (some Json.null)) = .ok ⟨Option.none, []⟩ ∧
    fetch_funding_rates (.str "1") (.str "1h") (.int 7) (.int 7) (.int 10)
      (fun _ => .response 200 (some Json.null)) = .ok ⟨Option.none, []⟩ ∧
    (∃ res : Option Json,
      fetch_candlesticks (.str "1") (.str "1w") (.int (8 - 1)) (.int 8) (.int 10)
        (fun _ => .response 200 (some Json.null)) =
        .ok ⟨res, [⟨BASE_URL ++ "/api/v1/candlesticks",
          [("market_id", .str "1"), ("resolution", .str "1w"),
           ("start_timestamp", .int (8 - 1)), ("end_timestamp", .int 8),
           ("count_back", .int 10)], DEFAULT_TIMEOUT⟩]⟩) ∧
    (∃ res : Option Json,
      fetch_funding_rates (.str "1") (.str "1d") (.int (8 - 1)) (.int 8) (.int 10)
        (fun _ => .response 200 (some Json.null)) =
        .ok ⟨res, [⟨BASE_URL ++ "/api/v1/fundings",
          [("market_id", .str "1"), ("resolution", .str "1d"),
           ("start_timestamp", .int (8 - 1)), ("end_timestamp", .int 8),
           ("count_back", .int 10)], DEFAULT_TIMEOUT⟩]⟩) ∧
    fetch_candlesticks (.str "1") (.str "3h") (.int 0) (.int 9) (.int 10)
      (fun _ => .response 200 (some Json.null)) = .ok ⟨Option.none, []⟩ ∧
    fetch_funding_rates (.str "1") (.str "1m") (.int 0) (.int 9) (.int 10)
      (fun _ => .response 200 (some Json.null)) = .ok ⟨Option.none, []⟩ :=
  ⟨fetch_boundary_validation.1 (.str "1") (.str "1d") (.int 10) 7 _,
   fetch_boundary_validation.2.1 (.str "1") (.str "1h") (.int 10) 7 _,
   fetch_boundary_validation.2.2.1 (.str "1") (.int 10) 8 "1w" _ rfl rfl (by decide),
   fetch_boundary_validation.2.2.2.1 (.str "1") (.int 10) 8 "1d" _ rfl rfl (by decide),
   fetch_boundary_validation.2.2.2.2.1 (.str "1") (.str "3h") (.int 10) 0 9 _ (by decide),
   fetch_boundary_validation.2.2.2.2.2 (.str "1") (.str "1m") (.int 10) 0 9 _ (by decide)⟩

end LighterApi

namespace LighterApi

/-- Claim C4: whenever the transport answers every request with a 2xx
response whose body parses as the JSON value `j` — of any shape —
every accessor that reaches the network returns exactly that parsed
value `j`, unmodified: `get_account_index` and `get_account` on valid
arguments, `get_orderbook_details` on any argument,
`fetch_candlesticks` and `fetch_funding_rates` on arguments passing
their validation, and `get_current_funding_rates` always. -/
theorem accessors_return_parsed_body (s : Nat) (j : Json)
    (hs : 200 ≤ s ∧ s < 300) (t : Transport)
    (ht : ∀ r, t r = .response s (some j)) :
    (∀ v : PVal, v.truthy = true → v.isStr = true →
      ∃ cs, get_account_index v t = .ok ⟨some j, cs⟩) ∧
    (∀ bs vs : String, (bs = "index" ∨ bs = "l1_address") → pyStrip vs ≠ "" →
      ∃ cs, get_account (.str bs) (.str vs) t = .ok ⟨some j, cs⟩) ∧
    (∀ m : PVal, ∃ cs, get_orderbook_details m t = .ok ⟨some j, cs⟩) ∧
    (∀ m r se ee c : PVal, [m, r, se, ee, c].all PVal.isStrOrInt = true →
      pyGE se ee = .ok false → pyInStrSet r candleResolutions = true →
      ∃ cs, fetch_candlesticks m r se ee c t = .ok ⟨some j, cs⟩) ∧
    (∀ m r se ee c : PVal, [m, r, se, ee, c].all PVal.isStrOrInt = true →
      pyGE se ee = .ok false → pyInStrSet r fundingResolutions = true →
      ∃ cs, fetch_funding_rates m r se ee c t = .ok ⟨some j, cs⟩) ∧
    (∃ cs, get_current_funding_rates t = .ok ⟨some j, cs⟩) := by
  have hnot : ¬ (400 ≤ s ∧ s < 600) := by omega
  have hm : ∀ r : Request, make_request (t r) DEFAULT_TIMEOUT = .ok j := by
    intro r
    rw [ht r]
    simp [make_request, hnot]
  refine ⟨?_, ?_, ?_, ?_, ?_, ?_⟩
  · intro v h1 h2
    unfold get_account_index
    simp only [h1, h2, Bool.not_true, Bool.or_self, Bool.false_eq_true, if_false, hm]
    exact ⟨_, rfl⟩
  · intro bs vs hb hv
    unfold get_account
    have hin : pyInStrSet (.str bs) ["index", "l1_address"] = true := by
      rcases hb with rfl | rfl <;> decide
    simp only [PVal.isStr, Bool.not_true, Bool.or_self, Bool.false_eq_true,
      if_false, hin, PVal.asStr, Bool.not_false, hv, if_true, Bool.false_or, hm]
    exact ⟨_, rfl⟩
  · intro m
    unfold get_orderbook_details
    simp only [hm]
    exact ⟨_, rfl⟩
  · intro m r se ee c hall hge hr
    unfold fetch_candlesticks
    simp only [hall, Bool.not_true, Bool.false_eq_true, if_false, hge, hr,
      Bool.not_false, if_true, hm]
    exact ⟨_, rfl⟩
  · intro m r se ee c hall hge hr
    unfold fetch_funding_rates
    simp only [hall, Bool.not_true, Bool.false_eq_true, if_false, hge, hr,
      Bool.not_false, if_true, hm]
    exact ⟨_, rfl⟩
  · unfold get_current_funding_rates
    simp only [hm]
    exact ⟨_, rfl⟩

/-- Witness for C4: with a transport constantly answering 200 and the
JSON array `[nul]`, each accessor at a concrete valid input returns
exactly that array. -/
theorem accessors_return_parsed_body_witness :
    (∃ cs, get_account_index (.str "0xdef")
      (fun _ => .response 200 (some (Json.arr [Json.null]))) =
      .ok ⟨some (Json.arr [Json.null]), cs⟩) ∧
    (∃ cs, get_orderbook_details (.int 2)
      (fun _ => .response 200 (some (Json.arr [Json.null]))) =
      .ok ⟨some (Json.arr [Json.null]), cs⟩) ∧
    (∃ cs, fetch_candlesticks (.str "1") (.str "4h") (.int 0) (.int 1) (.int 10)
      (fun _ => .response 200 (some (Json.arr [Json.null]))) =
      .ok ⟨some (Json.arr [Json.null]), cs⟩) ∧
    (∃ cs, get_current_funding_rates
      (fun _ => .response 200 (some (Json.arr [Json.null]))) =
      .ok ⟨some (Json.arr [Json.null]), cs⟩) :=
  ⟨(accessors_return_parsed_body 200 (Json.arr [Json.null]) (by decide) _
      (fun _ => rfl)).1 (.str "0xdef") (by decide) rfl,
   (accessors_return_parsed_body 200 (Json.arr [Json.null]) (by decide) _
      (fun _ => rfl)).2.2.1 (.int 2),
   (accessors_return_parsed_body 200 (Json.arr [Json.null]) (by decide) _
      (fun _ => rfl)).2.2.2.1 (.str "1") (.str "4h") (.int 0) (.int 1) (.int 10)
      rfl rfl (by decide),
   (accessors_return_parsed_body 200 (Json.arr [Json.null]) (by decide) _
      (fun _ => rfl)).2.2.2.2.2⟩

end LighterApi

namespace Process

/-- Claim C8: on a dataset whose `timestamp` column holds the single
epoch value 0 with unit `"s"`, the normalizer produces the datetime
cell denoting 1970-01-01T08:00:00 in the fixed UTC+8 zone; and for any
supported unit, each epoch tick `n` is interpreted as the UTC instant
`n * factor` nanoseconds and re-expressed at the constant +480-minute
(8-hour) offset, with no daylight-saving rule anywhere in the model. -/
theorem convert_epoch_zero_seconds_utc8 :
    (convert_timestamp_column [("timestamp", [Cell.int 0])] "timestamp" "s" =
      .ok [("timestamp", [mkDateTimeUTC8 1970 1 1 8 0 0])]) ∧
    (∀ (u : String) (f n : Int), unitNanos u = some f →
      convert_timestamp_column [("timestamp", [Cell.int n])] "timestamp" u =
        .ok [("timestamp", [Cell.datetime (n * f) 480])]) := by
  refine ⟨rfl, ?_⟩
  intro u f n hu
  simp [convert_timestamp_column, hu, convertColumns, convertCells, toDatetime,
    Except.map]

/-- Witness for C8: unit `"ms"` at tick 5 becomes the instant
5,000,000 ns after the epoch, at the +480-minute offset. -/
theorem convert_epoch_zero_seconds_utc8_witness :
    convert_timestamp_column [("timestamp", [Cell.int 5])] "timestamp" "ms" =
      .ok [("timestamp", [Cell.datetime (5 * 1000000) 480])] :=
  convert_epoch_zero_seconds_utc8.2 "ms" 1000000 5 rfl

/-- Helper: a successful `convertColumns` run relates input and output
columns pointwise, in order: names are preserved, non-target columns
are untouched, and target columns are the cellwise conversion. -/
theorem convertColumns_ok_forall2 {column : String} {factor : Int} :
    ∀ {df df' : DataFrame}, convertColumns column factor df = .ok df' →
      List.Forall₂ (fun col col' => col.1 = col'.1 ∧
        (col.1 ≠ column → col'.2 = col.2) ∧
        (col.1 = column → convertCells factor col.2 = some col'.2)) df df' := by
  intro df
  induction df with
  | nil =>
    intro df' h
    simp only [convertColumns] at h
    injection h with h
    subst h
    exact List.Forall₂.nil
  | cons hd tl ih =>
    intro df' h
    obtain ⟨name, cells⟩ := hd
    simp only [convertColumns] at h
    by_cases hn : name = column
    · rw [if_pos hn] at h
      cases hcc : convertCells factor cells with
      | none =>
        rw [hcc] at h
        cases h
      | some cells' =>
        rw [hcc] at h
        cases hrest : convertColumns column factor tl with
        | error e =>
          rw [hrest] at h
          cases h
        | ok r =>
          rw [hrest] at h
          simp only [Except.map] at h
          injection h with h
          subst h
          exact List.Forall₂.cons
            ⟨rfl, fun hne => absurd hn hne, fun _ => hcc⟩ (ih hrest)
    · rw [if_neg hn] at h
      cases hrest : convertColumns column factor tl with
      | error e =>
        rw [hrest] at h
        cases h
      | ok r =>
        rw [hrest] at h
        simp only [Except.map] at h
        injection h with h
        subst h
        exact List.Forall₂.cons
          ⟨rfl, fun _ => rfl, fun hc => absurd hc hn⟩ (ih hrest)

/-- Claim C9: the normalizer is functional and column-local — on
success the output dataset relates to the input column-by-column in
order: every column keeps its name (and rows their order), every
column not named `column` keeps exactly its values, and every column
named `column` has exactly its cells converted to fixed-offset
datetimes; and when the named column is absent the dataset is returned
unchanged, with no error. -/
theorem convert_timestamp_column_frame :
    (∀ (df : DataFrame) (column unit : String), column ∉ df.map Prod.fst →
      convert_timestamp_column df column unit = .ok df) ∧
    (∀ (df df' : DataFrame) (column unit : String),
      convert_timestamp_column df column unit = .ok df' →
      List.Forall₂ (fun col col' => col.1 = col'.1 ∧
        (col.1 ≠ column → col'.2 = col.2) ∧
        (col.1 = column → ∃ factor, unitNanos unit = some factor ∧
          convertCells factor col.2 = some col'.2)) df df') := by
  constructor
  · intro df column unit h
    simp [convert_timestamp_column, h]
  · intro df df' column unit h
    unfold convert_timestamp_column at h
    by_cases hmem : column ∈ df.map Prod.fst
    · rw [if_pos hmem] at h
      cases hu : unitNanos unit with
      | none =>
        rw [hu] at h
        cases h
      | some factor =>
        rw [hu] at h
        refine (convertColumns_ok_forall2 h).imp ?_
        intro a b hab
        exact ⟨hab.1, hab.2.1, fun hc => ⟨factor, rfl, hab.2.2 hc⟩⟩
    · rw [if_neg hmem] at h
      injection h with h
      subst h
      refine List.forall₂_same.mpr ?_
      intro x hx
      exact ⟨rfl, fun _ => rfl,
        fun hc => absurd (hc ▸ List.mem_map_of_mem Prod.fst hx) hmem⟩

/-- Witness for C9: a dataset without the named column is returned
unchanged; a two-column dataset has only its `timestamp` column
converted, the other column and the order untouched. -/
theorem convert_timestamp_column_frame_witness :
    convert_timestamp_column [("price", [Cell.int 7])] "timestamp" "ms" =
      .ok [("price", [Cell.int 7])] ∧
    List.Forall₂ (fun col col' => col.1 = col'.1 ∧
        (col.1 ≠ "timestamp" → col'.2 = col.2) ∧
        (col.1 = "timestamp" → ∃ factor, unitNanos "ms" = some factor ∧
          convertCells factor col.2 = some col'.2))
      [("other", [Cell.str "k"]), ("timestamp", [Cell.int 1])]
      [("other", [Cell.str "k"]), ("timestamp", [Cell.datetime 1000000 480])] :=
  ⟨convert_timestamp_column_frame.1 [("price", [Cell.int 7])] "timestamp" "ms"
      (by decide),
   convert_timestamp_column_frame.2
      [("other", [Cell.str "k"]), ("timestamp", [Cell.int 1])]
      [("other", [Cell.str "k"]), ("timestamp", [Cell.datetime 1000000 480])]
      "timestamp" "ms" rfl⟩

end Process
